import Mathlib

/-!
Verification of the yt-dlp audio download service (`ytdlp-service/app.py`).

The service is a Flask app with two handlers: `GET /health` (a constant JSON
payload) and `POST /download` (API-key check, JSON-body validation, an external
yt-dlp extraction call inside a scoped temporary directory, output-file
discovery, and translation of exceptions into JSON error responses).

The embedding below models the handlers as pure functions.  External
collaborators are parameters: the yt-dlp call is an oracle
`pipeline : String → PipelineResult`, and the parse outcome of
`request.get_json()` is the `Body` argument.  Side effects on the temporary
directory (creation, the extraction call, what `send_file` does, removal by
the `with tempfile.TemporaryDirectory()` context manager, and the later read
of the served file) are recorded as an explicit event trace, in the order the
Python and WSGI semantics perform them: the `return send_file(...)` expression
is evaluated before the `with` block's cleanup runs, and the cleanup runs on
every exit from the block, including exceptional ones; but `send_file` only
opens the file and wraps the open handle in a passthrough response — the bytes
are read when the WSGI server iterates the response body, after the view
function (and hence the cleanup) has finished.  `download` is the view
function alone; `serveRequest` is the view function followed by that response
iteration.
-/

namespace App

set_option maxRecDepth 10000

/-- Python `str.startswith(p)`: Python strings are sequences of code points and
`startswith` tests a code-point-level prefix, which is what `List.isPrefixOf`
on the underlying character list computes. -/
def pyStartsWith (s p : String) : Bool := p.data.isPrefixOf s.data

/-- Python truthiness of an optional string (`if API_KEY:` / `if not url:`):
`None` and the empty string are falsy, every other string is truthy. -/
def pyTruthy : Option String → Bool
  | none => false
  | some s => !s.isEmpty

/-- The parsed JSON body, as far as the handler inspects it.  `dict url` is a
JSON object whose `url` member (if present) is the given string; `nonDict` is
a JSON value that is not an object (e.g. `null` or a list), on which
`data.get('url')` raises an `AttributeError` carrying the given message. -/
inductive JsonData where
  | dict (url : Option String)
  | nonDict (attrErrMsg : String)
  deriving DecidableEq

/-- Outcome of `request.get_json()` (app.py line 41).  When the request body
cannot be parsed as JSON, Flask's `get_json` (default `silent=False`) raises a
`BadRequest` exception carrying the given message; otherwise it returns the
parsed value. -/
inductive Body where
  | malformed (errMsg : String)
  | parsed (data : JsonData)
  deriving DecidableEq

/-- Outcome of the external call `ydl.extract_info(url, download=True)`
(app.py line 69): either it returns normally and the temporary directory then
holds the listed file names (in filesystem listing order), or it raises
`yt_dlp.utils.DownloadError`, or it raises some other exception. -/
inductive PipelineResult where
  | ok (files : List String)
  | downloadError (msg : String)
  | otherError (msg : String)
  deriving DecidableEq

/-- A Python exception, distinguished the way the handler's two `except`
clauses distinguish them: `yt_dlp.utils.DownloadError` versus everything
else. -/
inductive PyExc where
  | downloadError (msg : String)
  | otherError (msg : String)
  deriving DecidableEq

/-- An HTTP response produced by a handler: `jsonify(...)` with a status code
and an ordered list of key/value fields, or `send_file(path, mimetype=...,
as_attachment=True, download_name=...)` with its implicit 200 status. -/
inductive Response where
  | json (status : Nat) (body : List (String × String))
  | file (status : Nat) (mimetype : String) (downloadName : String) (path : String)
  deriving DecidableEq

/-- Filesystem events of one `/download` request, in the order they happen.
`openFile` is what `send_file(path, ...)` does inside the view function: open
the file and build a passthrough response around the open handle.  `readFile`
is the later consumption of the bytes, when the WSGI server iterates that
response body. -/
inductive Event where
  | mkTempDir
  | extractCall (url : String)
  | openFile (path : String)
  | rmTempDir
  | readFile (path : String)
  deriving DecidableEq

/-- Output discovery (app.py lines 72-80): serve `audio.mp3` when it exists;
otherwise the first name matching the glob pattern `audio.*` (a name beginning
with `audio.`) in listing order; `none` when nothing matches, in which case the
handler raises `Exception('Downloaded file not found')`. -/
def findAudioFile (files : List String) : Option String :=
  if files.contains "audio.mp3" then some "audio.mp3"
  else
    match files.filter (fun f => pyStartsWith f "audio.") with
    | [] => none
    | f :: _ => some f

/-- The body of the `try` block (app.py lines 40-90): JSON parsing, url
validation, the scoped temporary directory, the extraction call, output
discovery and `send_file`.  Returns either the normal `Response` or the raised
exception, together with the event trace of the block.  The trace shows the
`with` block's cleanup (`Event.rmTempDir`) running on every exit from the
block; on the success path it runs after `send_file` has opened the file
(`Event.openFile`) — but the bytes of the file are not read inside the block:
that happens only during the later WSGI iteration (see `serveRequest`). -/
def tryBlock (body : Body) (pipeline : String → PipelineResult) :
    Except PyExc Response × List Event :=
  match body with
  | .malformed msg => (.error (.otherError msg), [])
  | .parsed (.nonDict msg) => (.error (.otherError msg), [])
  | .parsed (.dict url) =>
    if !pyTruthy url then
      (.ok (.json 400 [("error", "No URL provided")]), [])
    else
      let u := url.getD ""
      match pipeline u with
      | .ok files =>
        match findAudioFile files with
        | some f =>
          (.ok (.file 200 "audio/mpeg" "audio.mp3" f),
           [.mkTempDir, .extractCall u, .openFile f, .rmTempDir])
        | none =>
          (.error (.otherError "Downloaded file not found"),
           [.mkTempDir, .extractCall u, .rmTempDir])
      | .downloadError msg =>
        (.error (.downloadError msg), [.mkTempDir, .extractCall u, .rmTempDir])
      | .otherError msg =>
        (.error (.otherError msg), [.mkTempDir, .extractCall u, .rmTempDir])

/-- The two `except` clauses (app.py lines 92-104): `DownloadError` becomes a
400 with `Download failed`, any other exception becomes a 500 with
`Internal server error`, each carrying the exception message in `details`. -/
def handleExc : PyExc → Response
  | .downloadError msg => .json 400 [("error", "Download failed"), ("details", msg)]
  | .otherError msg => .json 500 [("error", "Internal server error"), ("details", msg)]

/-- The `try`/`except` of the download handler: a raised exception is caught at
the handler boundary and translated; it never escapes. -/
def tryExcept (body : Body) (pipeline : String → PipelineResult) :
    Response × List Event :=
  match tryBlock body pipeline with
  | (.ok r, evs) => (r, evs)
  | (.error e, evs) => (handleExc e, evs)

/-- The `POST /download` handler (app.py lines 30-104).  `apiKey` is the
process-wide `os.environ.get('API_KEY')` read at startup; `authHeader` is the
raw `Authorization` header (absent or present), to which
`request.headers.get('Authorization', '')` applies the `''` default; `body` is
the outcome of `request.get_json()`; `pipeline` is the external yt-dlp call. -/
def download (apiKey : Option String) (authHeader : Option String)
    (body : Body) (pipeline : String → PipelineResult) : Response × List Event :=
  if pyTruthy apiKey then
    let auth_header := authHeader.getD ""
    if !pyStartsWith auth_header "Bearer " || auth_header.drop 7 != apiKey.getD "" then
      (.json 401 [("error", "Unauthorized")], [])
    else
      tryExcept body pipeline
  else
    tryExcept body pipeline

/-- The `GET /health` handler (app.py lines 21-28).  It ignores all process
state; the `apiKey` parameter stands for that state, unused exactly as in the
source, and the empty event trace records that the handler has no side
effects. -/
def health (apiKey : Option String) : Response × List Event :=
  (.json 200 [("status", "healthy"), ("service", "yt-dlp-audio-service"),
    ("version", "1.0")], [])

/-- Full processing of one request: the view function (`download`) runs, then
the WSGI server iterates the returned response body.  For a file response
built by `send_file` that iteration is when the bytes are read — from a file
handle that was opened before, but is consumed after, the temporary
directory's removal (the unlinked inode stays readable through the open
handle on Linux). -/
def serveRequest (apiKey : Option String) (authHeader : Option String)
    (body : Body) (pipeline : String → PipelineResult) : Response × List Event :=
  match download apiKey authHeader body pipeline with
  | (Response.file s m n f, evs) => (Response.file s m n f, evs ++ [Event.readFile f])
  | (r, evs) => (r, evs)

/-- The request passes (or skips) the API-key check of the download handler:
either no key is configured, or the `Authorization` header starts with
`Bearer ` and the rest equals the key. -/
def authPassesB (apiKey authHeader : Option String) : Bool :=
  !pyTruthy apiKey ||
    (pyStartsWith (authHeader.getD "") "Bearer " &&
      (authHeader.getD "").drop 7 == apiKey.getD "")

/-! ### Helper lemmas -/

/-- The handler's auth-rejection condition (app.py line 37) is false exactly
when the Authorization header is the string `Bearer ` followed by the key. -/
theorem authCond_false_iff (h k : String) :
    (!pyStartsWith h "Bearer " || h.drop 7 != k) = false ↔ h = "Bearer " ++ k := by
  rw [Bool.or_eq_false_iff, Bool.not_eq_false', bne_eq_false_iff_eq]
  rw [show (pyStartsWith h "Bearer " = true) ↔ "Bearer ".data <+: h.data from by
    rw [pyStartsWith, List.isPrefixOf_iff_prefix]]
  constructor
  · rintro ⟨⟨t, ht⟩, hdrop⟩
    have hd : h.data.drop 7 = k.data := by
      rw [← hdrop]; exact (String.data_drop h 7).symm
    rw [← ht] at hd
    have h7 : "Bearer ".data.length = 7 := rfl
    rw [List.drop_append_of_le_length (by rw [h7])] at hd
    simp [h7] at hd
    apply String.ext
    rw [← ht, hd, String.data_append]
  · rintro rfl
    refine ⟨⟨k.data, by rw [String.data_append]⟩, ?_⟩
    apply String.ext
    rw [String.data_drop, String.data_append]
    have h7 : "Bearer ".data.length = 7 := rfl
    rw [← h7, List.drop_left]

/-- Every run of the download handler either stops at the 401 auth rejection
(with no temp-dir events) or runs the try/except body. -/
theorem download_cases (apiKey authHeader : Option String) (body : Body)
    (pipeline : String → PipelineResult) :
    download apiKey authHeader body pipeline =
      (Response.json 401 [("error", "Unauthorized")], []) ∨
    download apiKey authHeader body pipeline = tryExcept body pipeline := by
  unfold download
  split
  · dsimp only
    split
    · exact Or.inl rfl
    · exact Or.inr rfl
  · exact Or.inr rfl

/-- When the API-key check passes (or is skipped), the download handler is the
try/except body. -/
theorem download_eq_tryExcept (apiKey authHeader : Option String) (body : Body)
    (pipeline : String → PipelineResult) (hauth : authPassesB apiKey authHeader = true) :
    download apiKey authHeader body pipeline = tryExcept body pipeline := by
  unfold download
  unfold authPassesB at hauth
  cases hpt : pyTruthy apiKey with
  | false => simp [hpt]
  | true =>
    rw [hpt] at hauth
    simp only [Bool.not_true, Bool.false_or, Bool.and_eq_true] at hauth
    obtain ⟨h1, h2⟩ := hauth
    simp [h1, h2, bne]

/-- Exhaustive case analysis of the try/except body: its outcome is one of the
five source results, each with its temp-dir trace. -/
theorem tryExcept_cases (body : Body) (pipeline : String → PipelineResult) :
    (∃ msg, tryExcept body pipeline =
        (Response.json 500 [("error", "Internal server error"), ("details", msg)], [])) ∨
    tryExcept body pipeline = (Response.json 400 [("error", "No URL provided")], []) ∨
    (∃ u f, tryExcept body pipeline =
        (Response.file 200 "audio/mpeg" "audio.mp3" f,
         [Event.mkTempDir, Event.extractCall u, Event.openFile f, Event.rmTempDir])) ∨
    (∃ u msg, tryExcept body pipeline =
        (Response.json 400 [("error", "Download failed"), ("details", msg)],
         [Event.mkTempDir, Event.extractCall u, Event.rmTempDir])) ∨
    (∃ u msg, tryExcept body pipeline =
        (Response.json 500 [("error", "Internal server error"), ("details", msg)],
         [Event.mkTempDir, Event.extractCall u, Event.rmTempDir])) := by
  rcases body with msg | (url | msg)
  · exact Or.inl ⟨msg, rfl⟩
  · cases hu : pyTruthy url with
    | false => exact Or.inr (Or.inl (by simp [tryExcept, tryBlock, hu]))
    | true =>
      cases hp : pipeline (url.getD "") with
      | ok files =>
        cases hf : findAudioFile files with
        | some f =>
          exact Or.inr (Or.inr (Or.inl ⟨url.getD "", f, by
            simp [tryExcept, tryBlock, hu, hp, hf]⟩))
        | none =>
          refine Or.inr (Or.inr (Or.inr (Or.inr ⟨url.getD "", "Downloaded file not found", ?_⟩)))
          simp [tryExcept, tryBlock, handleExc, hu, hp, hf]
      | downloadError msg =>
        refine Or.inr (Or.inr (Or.inr (Or.inl ⟨url.getD "", msg, ?_⟩)))
        simp [tryExcept, tryBlock, handleExc, hu, hp]
      | otherError msg =>
        refine Or.inr (Or.inr (Or.inr (Or.inr ⟨url.getD "", msg, ?_⟩)))
        simp [tryExcept, tryBlock, handleExc, hu, hp]
  · exact Or.inl ⟨msg, rfl⟩

/-! ### Claim theorems -/

/-- C1: when a non-empty API key is configured, POST /download responds 401
with body error/Unauthorized unless the Authorization header is exactly
`Bearer ` followed by the configured key; on an exact match the auth check
passes and processing continues with validation and the rest of the
try/except body. -/
theorem claim1_auth_exact_match (k : String) (hk : k ≠ "") (authHeader : Option String)
    (body : Body) (pipeline : String → PipelineResult) :
    download (some k) authHeader body pipeline =
      if authHeader.getD "" = "Bearer " ++ k then tryExcept body pipeline
      else (Response.json 401 [("error", "Unauthorized")], []) := by
  have hke : k.isEmpty = false := by
    cases hb : k.isEmpty with
    | false => rfl
    | true => exact absurd ((String.isEmpty_iff k).mp hb) hk
  have hkt : pyTruthy (some k) = true := by simp [pyTruthy, hke]
  unfold download
  rw [if_pos hkt]
  dsimp only
  by_cases hc : authHeader.getD "" = "Bearer " ++ k
  · rw [if_pos hc]
    have hcond := (authCond_false_iff (authHeader.getD "") k).mpr hc
    simp only [Option.getD_some, hcond]
    simp
  · rw [if_neg hc]
    have hcond : (!pyStartsWith (authHeader.getD "") "Bearer " ||
        (authHeader.getD "").drop 7 != k) = true := by
      cases hb : (!pyStartsWith (authHeader.getD "") "Bearer " ||
          (authHeader.getD "").drop 7 != k) with
      | false => exact absurd ((authCond_false_iff _ k).mp hb) hc
      | true => rfl
    simp only [Option.getD_some, hcond]
    simp

/-- C1 witness: with the key `s3cret` configured, a mismatched header is
rejected with 401. -/
theorem claim1_auth_exact_match_witness :
    download (some "s3cret") (some "Bearer nope") (Body.parsed (JsonData.dict none))
        (fun _ => PipelineResult.ok []) =
      (Response.json 401 [("error", "Unauthorized")], []) := by
  rw [claim1_auth_exact_match "s3cret" (by decide) (some "Bearer nope")
    (Body.parsed (JsonData.dict none)) (fun _ => PipelineResult.ok [])]
  decide

/-- C6: with the auth check passed or disabled, a request body that is the
empty JSON object, or one whose url field is the empty string, receives
exactly 400 with body error/No URL provided. -/
theorem claim6_missing_url_400 (apiKey authHeader : Option String)
    (pipeline : String → PipelineResult)
    (hauth : authPassesB apiKey authHeader = true) :
    download apiKey authHeader (Body.parsed (JsonData.dict none)) pipeline =
      (Response.json 400 [("error", "No URL provided")], []) ∧
    download apiKey authHeader (Body.parsed (JsonData.dict (some ""))) pipeline =
      (Response.json 400 [("error", "No URL provided")], []) := by
  have hempty : "".isEmpty = true := rfl
  constructor <;> rw [download_eq_tryExcept _ _ _ _ hauth] <;>
    simp [tryExcept, tryBlock, pyTruthy, hempty]

/-- C6 witness: with no key configured, the empty JSON object body gets the
400 No-URL response. -/
theorem claim6_missing_url_400_witness :
    download none none (Body.parsed (JsonData.dict none)) (fun _ => PipelineResult.ok []) =
      (Response.json 400 [("error", "No URL provided")], []) :=
  (claim6_missing_url_400 none none (fun _ => PipelineResult.ok []) (by decide)).1

/-- C7: with API_KEY unset the Authorization header has no influence on the
handler: two requests identical except for that header produce the same
response and the same event trace. -/
theorem claim7_auth_header_noninterference (h1 h2 : Option String) (body : Body)
    (pipeline : String → PipelineResult) :
    download none h1 body pipeline = download none h2 body pipeline := rfl

/-- C9: GET /health answers 200 with exactly the fixed status, service and
version fields, independent of the process state, and performs no events. -/
theorem claim9_health_constant (k1 k2 : Option String) :
    health k1 = (Response.json 200 [("status", "healthy"),
        ("service", "yt-dlp-audio-service"), ("version", "1.0")], []) ∧
    health k1 = health k2 := ⟨rfl, rfl⟩

/-- C10: an empty-string API_KEY is falsy in the `if API_KEY:` guard, so the
auth check is skipped exactly as when the variable is unset, and no request is
ever answered 401. -/
theorem claim10_empty_key_open_access (authHeader : Option String) (body : Body)
    (pipeline : String → PipelineResult) :
    download (some "") authHeader body pipeline = download none authHeader body pipeline ∧
    (download (some "") authHeader body pipeline).1 ≠
      Response.json 401 [("error", "Unauthorized")] := by
  have hpt : pyTruthy (some "") = false := by decide
  have heq : download (some "") authHeader body pipeline = tryExcept body pipeline := by
    unfold download; rw [hpt]; simp
  refine ⟨?_, ?_⟩
  · rw [heq]; rfl
  · rw [heq]
    rcases tryExcept_cases body pipeline with ⟨msg, he⟩ | he | ⟨u, f, he⟩ |
      ⟨u, msg, he⟩ | ⟨u, msg, he⟩ <;> rw [he] <;> simp

/-- C2 counterexample: a request whose body fails to parse as JSON is answered
500 Internal server error (the exception raised by `request.get_json()` is
caught by the generic except clause), not 400 No URL provided as the claim
states. -/
theorem claim2_counterexample :
    download none none (Body.malformed "Failed to decode JSON object")
        (fun _ => PipelineResult.ok []) =
      (Response.json 500 [("error", "Internal server error"),
        ("details", "Failed to decode JSON object")], []) ∧
    (download none none (Body.malformed "Failed to decode JSON object")
        (fun _ => PipelineResult.ok [])).1 ≠
      Response.json 400 [("error", "No URL provided")] :=
  ⟨rfl, by decide⟩

/-- C2 (amended): after authentication, a body that parses as a JSON object
lacking a non-empty url gives 400 No URL provided; a body that fails to parse
as JSON, or parses to a non-object, instead raises inside the try block and is
answered 500 Internal server error carrying the exception message. -/
theorem claim2_validation_amended (apiKey authHeader : Option String)
    (pipeline : String → PipelineResult)
    (hauth : authPassesB apiKey authHeader = true) :
    (∀ url, pyTruthy url = false →
      download apiKey authHeader (Body.parsed (JsonData.dict url)) pipeline =
        (Response.json 400 [("error", "No URL provided")], [])) ∧
    (∀ msg, download apiKey authHeader (Body.malformed msg) pipeline =
        (Response.json 500 [("error", "Internal server error"), ("details", msg)], [])) ∧
    (∀ msg, download apiKey authHeader (Body.parsed (JsonData.nonDict msg)) pipeline =
        (Response.json 500 [("error", "Internal server error"), ("details", msg)], [])) := by
  refine ⟨?_, ?_, ?_⟩
  · intro url hu
    rw [download_eq_tryExcept _ _ _ _ hauth]
    simp [tryExcept, tryBlock, hu]
  · intro msg
    rw [download_eq_tryExcept _ _ _ _ hauth]
    rfl
  · intro msg
    rw [download_eq_tryExcept _ _ _ _ hauth]
    rfl

/-- C2 witness: with no key configured, an unparseable body is answered 500
with the parse-exception message. -/
theorem claim2_validation_amended_witness :
    download none none (Body.malformed "bad body") (fun _ => PipelineResult.ok []) =
      (Response.json 500 [("error", "Internal server error"), ("details", "bad body")], []) :=
  (claim2_validation_amended none none (fun _ => PipelineResult.ok []) (by decide)).2.1 "bad body"

/-- C3: for a request that reaches the extraction call, a DownloadError from
the pipeline is answered 400 Download failed with the message in details, and
any other exception — including the missing-output-file case — is answered
500 Internal server error with the message; `download` is a total function
into responses, so no exception propagates past the handler. -/
theorem claim3_error_translation (apiKey authHeader : Option String) (u : String)
    (pipeline : String → PipelineResult)
    (hauth : authPassesB apiKey authHeader = true) (hu : pyTruthy (some u) = true) :
    (∀ msg, pipeline u = PipelineResult.downloadError msg →
      download apiKey authHeader (Body.parsed (JsonData.dict (some u))) pipeline =
        (Response.json 400 [("error", "Download failed"), ("details", msg)],
         [Event.mkTempDir, Event.extractCall u, Event.rmTempDir])) ∧
    (∀ msg, pipeline u = PipelineResult.otherError msg →
      download apiKey authHeader (Body.parsed (JsonData.dict (some u))) pipeline =
        (Response.json 500 [("error", "Internal server error"), ("details", msg)],
         [Event.mkTempDir, Event.extractCall u, Event.rmTempDir])) ∧
    (∀ files, pipeline u = PipelineResult.ok files → findAudioFile files = none →
      download apiKey authHeader (Body.parsed (JsonData.dict (some u))) pipeline =
        (Response.json 500 [("error", "Internal server error"),
          ("details", "Downloaded file not found")],
         [Event.mkTempDir, Event.extractCall u, Event.rmTempDir])) := by
  refine ⟨?_, ?_, ?_⟩
  · intro msg hp
    rw [download_eq_tryExcept _ _ _ _ hauth]
    simp [tryExcept, tryBlock, handleExc, hu, hp]
  · intro msg hp
    rw [download_eq_tryExcept _ _ _ _ hauth]
    simp [tryExcept, tryBlock, handleExc, hu, hp]
  · intro files hp hf
    rw [download_eq_tryExcept _ _ _ _ hauth]
    simp [tryExcept, tryBlock, handleExc, hu, hp, hf]

/-- C3 witness: a pipeline DownloadError on a concrete request is answered
400 Download failed with the message. -/
theorem claim3_error_translation_witness :
    download none none (Body.parsed (JsonData.dict (some "http://x")))
        (fun _ => PipelineResult.downloadError "boom") =
      (Response.json 400 [("error", "Download failed"), ("details", "boom")],
       [Event.mkTempDir, Event.extractCall "http://x", Event.rmTempDir]) :=
  (claim3_error_translation none none "http://x"
    (fun _ => PipelineResult.downloadError "boom") (by decide) (by decide)).1 "boom" rfl

/-- C4: on every exit path — success, pipeline DownloadError, and any
unexpected exception — once the temporary directory was created its removal
happens and is the final temp-dir event of the request, so nothing created for
the request remains afterwards. -/
theorem claim4_cleanup_invariant (apiKey authHeader : Option String) (body : Body)
    (pipeline : String → PipelineResult)
    (hmk : Event.mkTempDir ∈ (download apiKey authHeader body pipeline).2) :
    (download apiKey authHeader body pipeline).2.getLast? = some Event.rmTempDir := by
  rcases download_cases apiKey authHeader body pipeline with h | h
  · rw [h] at hmk; simp at hmk
  · rw [h] at hmk ⊢
    rcases tryExcept_cases body pipeline with ⟨msg, he⟩ | he | ⟨u, f, he⟩ |
      ⟨u, msg, he⟩ | ⟨u, msg, he⟩ <;> rw [he] at hmk ⊢ <;>
      first
      | rfl
      | simp at hmk

/-- C4 witness: a concrete successful request ends its trace with the temp-dir
removal. -/
theorem claim4_cleanup_invariant_witness :
    (download none none (Body.parsed (JsonData.dict (some "u")))
      (fun _ => PipelineResult.ok ["audio.mp3"])).2.getLast? = some Event.rmTempDir :=
  claim4_cleanup_invariant none none _ _ (by decide)

/-- C8 counterexample: on a concrete successful request the full trace shows
the temporary directory removed strictly before the bytes of the served file
are read into the response — deletion precedes the complete read, refuting
the claim that the file is fully read before the deletion. -/
theorem claim8_counterexample :
    (serveRequest none none (Body.parsed (JsonData.dict (some "u")))
        (fun _ => PipelineResult.ok ["audio.mp3"])).2 =
      [Event.mkTempDir, Event.extractCall "u", Event.openFile "audio.mp3",
       Event.rmTempDir, Event.readFile "audio.mp3"] ∧
    (serveRequest none none (Body.parsed (JsonData.dict (some "u")))
        (fun _ => PipelineResult.ok ["audio.mp3"])).2.indexOf Event.rmTempDir <
      (serveRequest none none (Body.parsed (JsonData.dict (some "u")))
        (fun _ => PipelineResult.ok ["audio.mp3"])).2.indexOf
        (Event.readFile "audio.mp3") := by
  constructor
  · rfl
  · decide

/-- C8 (amended): whenever a file is served, the request's full trace is
exactly: temporary directory created, extraction call completed, the file
opened by send_file, the temporary directory removed, and only then the bytes
read into the outgoing response during WSGI iteration — send_file opens the
finished file before the deletion, but the complete read of its bytes happens
after the deletion, through the already-open handle. -/
theorem claim8_open_before_cleanup_read_after (apiKey authHeader : Option String)
    (body : Body) (pipeline : String → PipelineResult) (s : Nat) (m n f : String)
    (hfile : (serveRequest apiKey authHeader body pipeline).1 = Response.file s m n f) :
    ∃ u, (serveRequest apiKey authHeader body pipeline).2 =
      [Event.mkTempDir, Event.extractCall u, Event.openFile f,
       Event.rmTempDir, Event.readFile f] := by
  rcases download_cases apiKey authHeader body pipeline with h | h
  · have hs : serveRequest apiKey authHeader body pipeline =
        (Response.json 401 [("error", "Unauthorized")], []) := by
      unfold serveRequest; rw [h]
    rw [hs] at hfile; simp at hfile
  · rcases tryExcept_cases body pipeline with ⟨msg, he⟩ | he | ⟨u, f', he⟩ |
      ⟨u, msg, he⟩ | ⟨u, msg, he⟩
    · have hs : serveRequest apiKey authHeader body pipeline =
          (Response.json 500 [("error", "Internal server error"), ("details", msg)], []) := by
        unfold serveRequest; rw [h, he]
      rw [hs] at hfile; simp at hfile
    · have hs : serveRequest apiKey authHeader body pipeline =
          (Response.json 400 [("error", "No URL provided")], []) := by
        unfold serveRequest; rw [h, he]
      rw [hs] at hfile; simp at hfile
    · have hs : serveRequest apiKey authHeader body pipeline =
          (Response.file 200 "audio/mpeg" "audio.mp3" f',
           [Event.mkTempDir, Event.extractCall u, Event.openFile f',
            Event.rmTempDir, Event.readFile f']) := by
        unfold serveRequest; rw [h, he]; rfl
      rw [hs] at hfile ⊢
      simp only [Response.file.injEq] at hfile
      exact ⟨u, by rw [hfile.2.2.2]⟩
    · have hs : serveRequest apiKey authHeader body pipeline =
          (Response.json 400 [("error", "Download failed"), ("details", msg)],
           [Event.mkTempDir, Event.extractCall u, Event.rmTempDir]) := by
        unfold serveRequest; rw [h, he]
      rw [hs] at hfile; simp at hfile
    · have hs : serveRequest apiKey authHeader body pipeline =
          (Response.json 500 [("error", "Internal server error"), ("details", msg)],
           [Event.mkTempDir, Event.extractCall u, Event.rmTempDir]) := by
        unfold serveRequest; rw [h, he]
      rw [hs] at hfile; simp at hfile

/-- C8 witness: on a concrete successful request the trace is the five events
in order — open, then removal, then read. -/
theorem claim8_open_before_cleanup_read_after_witness :
    ∃ u, (serveRequest none none (Body.parsed (JsonData.dict (some "u")))
      (fun _ => PipelineResult.ok ["audio.mp3"])).2 =
      [Event.mkTempDir, Event.extractCall u, Event.openFile "audio.mp3",
       Event.rmTempDir, Event.readFile "audio.mp3"] :=
  claim8_open_before_cleanup_read_after none none _ _ 200 "audio/mpeg" "audio.mp3"
    "audio.mp3" (by decide)

/-- C5: after a successful pipeline call the handler serves audio.mp3 when it
is present in the temporary directory; otherwise the first file matching the
glob audio.* in listing order; and when no name matches at all it raises
instead of serving anything, yielding the 500 error response. -/
theorem claim5_output_discovery (apiKey authHeader : Option String) (u : String)
    (pipeline : String → PipelineResult) (files : List String)
    (hauth : authPassesB apiKey authHeader = true) (hu : pyTruthy (some u) = true)
    (hp : pipeline u = PipelineResult.ok files) :
    ("audio.mp3" ∈ files →
      (download apiKey authHeader (Body.parsed (JsonData.dict (some u))) pipeline).1 =
        Response.file 200 "audio/mpeg" "audio.mp3" "audio.mp3") ∧
    (∀ f fs, "audio.mp3" ∉ files →
      files.filter (fun n => pyStartsWith n "audio.") = f :: fs →
      (download apiKey authHeader (Body.parsed (JsonData.dict (some u))) pipeline).1 =
        Response.file 200 "audio/mpeg" "audio.mp3" f) ∧
    (files.filter (fun n => pyStartsWith n "audio.") = [] →
      (download apiKey authHeader (Body.parsed (JsonData.dict (some u))) pipeline).1 =
        Response.json 500 [("error", "Internal server error"),
          ("details", "Downloaded file not found")]) := by
  have hdl := download_eq_tryExcept apiKey authHeader
    (Body.parsed (JsonData.dict (some u))) pipeline hauth
  refine ⟨?_, ?_, ?_⟩
  · intro hmem
    have hc : files.contains "audio.mp3" = true := List.elem_iff.mpr hmem
    have hfind : findAudioFile files = some "audio.mp3" := by
      unfold findAudioFile; rw [hc]; simp
    rw [hdl]; simp [tryExcept, tryBlock, hu, hp, hfind]
  · intro f fs hnmem hfilter
    have hc : files.contains "audio.mp3" = false := by
      cases hb : files.contains "audio.mp3" with
      | false => rfl
      | true => exact absurd (List.elem_iff.mp hb) hnmem
    have hfind : findAudioFile files = some f := by
      unfold findAudioFile; rw [hc]; simp [hfilter]
    rw [hdl]; simp [tryExcept, tryBlock, hu, hp, hfind]
  · intro hfilter
    have hnmem : "audio.mp3" ∉ files := by
      intro hm
      have hmf : "audio.mp3" ∈ files.filter (fun n => pyStartsWith n "audio.") :=
        List.mem_filter.mpr ⟨hm, by decide⟩
      rw [hfilter] at hmf
      simp at hmf
    have hc : files.contains "audio.mp3" = false := by
      cases hb : files.contains "audio.mp3" with
      | false => rfl
      | true => exact absurd (List.elem_iff.mp hb) hnmem
    have hfind : findAudioFile files = none := by
      unfold findAudioFile; rw [hc]; simp [hfilter]
    rw [hdl]; simp [tryExcept, tryBlock, handleExc, hu, hp, hfind]

/-- C5 witness: a temporary directory holding exactly audio.mp3 leads to that
file being served. -/
theorem claim5_output_discovery_witness :
    (download none none (Body.parsed (JsonData.dict (some "u")))
        (fun _ => PipelineResult.ok ["audio.mp3"])).1 =
      Response.file 200 "audio/mpeg" "audio.mp3" "audio.mp3" :=
  (claim5_output_discovery none none "u" (fun _ => PipelineResult.ok ["audio.mp3"])
    ["audio.mp3"] (by decide) (by decide) rfl).1 (by decide)

end App
